import Mathlib

/-!
Formal model of the KuGou downloader (src/kugou.py): the URL / hash
extraction strategies, the two metadata source adapters, the tag
reconciliation, the cover fallback chain and the main pipeline, together
with proofs of the specification's testable properties.

Network effects are modelled by oracles: every function that performs an
HTTP request takes the response as an argument (or a request-to-response
function) and additionally returns the list of requests it issued, so
that "performs no network call" is the statement that this list is empty.
Python dictionaries coming back from the JSON APIs are modelled as
structures of optional fields; `dict.get(k, d)` is `Option.getD`, and
Python truthiness of a string field is the test against `""`.
-/

set_option maxRecDepth 10000

/-! ## String utilities (models of the Python string operations used) -/

/-- Model of `p.isPrefixOf s` on character lists, used to model
`str.startswith` and regular-expression literal matching. -/
def isPrefixList : List Char → List Char → Bool
  | [], _ => true
  | _ :: _, [] => false
  | p :: ps, c :: cs => p == c && isPrefixList ps cs

/-- Model of Python's `pat in s` substring test (scan every suffix). -/
def containsList (pat : List Char) : List Char → Bool
  | [] => isPrefixList pat []
  | c :: t => isPrefixList pat (c :: t) || containsList pat t

/-- `pat in s` for strings. -/
def hasSub (s pat : String) : Bool := containsList pat.toList s.toList

/-- `s.startswith(p)`. -/
def strStarts (s p : String) : Bool := isPrefixList p.toList s.toList

/-- `s[n:]` by characters. -/
def strDrop (s : String) (n : Nat) : String := (s.toList.drop n).asString

/-- Fuel-indexed worker for `str.replace` (replace every non-overlapping
occurrence, left to right).  The fuel starts at the length of the list and
is an upper bound on the number of steps, so it never runs out. -/
def replaceFuel (pat rep : List Char) : Nat → List Char → List Char
  | _, [] => []
  | 0, l => l
  | Nat.succ f, c :: t =>
    if isPrefixList pat (c :: t) then rep ++ replaceFuel pat rep f (t.drop (pat.length - 1))
    else c :: replaceFuel pat rep f t

/-- Model of Python `s.replace(pat, rep)`.  The program only ever calls it
with the non-empty pattern `"{size}"`, so the empty-pattern case (where
CPython would interleave `rep` between characters) is returned unchanged. -/
def pyReplace (s pat rep : String) : String :=
  if pat == "" then s
  else (replaceFuel pat.toList rep.toList s.toList.length s.toList).asString

/-- Whitespace class used for Python `str.strip()` and the regex `\s`
(ASCII part; the program only manipulates ASCII names and URLs here). -/
def pyIsSpace (c : Char) : Bool :=
  c == ' ' || c == '\t' || c == '\n' || c == '\x0b' || c == '\x0c' || c == '\r'

def stripList (l : List Char) : List Char :=
  ((l.dropWhile pyIsSpace).reverse.dropWhile pyIsSpace).reverse

/-- Model of Python `s.strip()`. -/
def pyStrip (s : String) : String := (stripList s.toList).asString

/-- The part after the first occurrence of `sep`
(`s.split(sep, 1)[-1]` when `sep in s`). -/
def afterFirstSep (sep : List Char) : List Char → List Char
  | [] => []
  | c :: t => if isPrefixList sep (c :: t) then t.drop (sep.length - 1) else afterFirstSep sep t

def pyAfterFirst (s sep : String) : String := (afterFirstSep sep.toList s.toList).asString

/-! ## urllib.parse: urlparse fragment/query and parse_qs

`urllib.parse.urlsplit` first strips leading C0-control-or-space
characters, removes every tab / CR / LF, then takes the fragment to be
everything after the first `#` and the query to be everything after the
first `?` of the pre-fragment part (scheme and netloc cannot contain
either delimiter). -/

def pySanitizeUrl (url : String) : String :=
  ((url.toList.dropWhile fun c => c.toNat ≤ 0x20).filter
    fun c => !(c == '\t' || c == '\r' || c == '\n')).asString

/-- Split a list at the first occurrence of `ch`: returns the part before
it and, when `ch` occurs, the part after it. -/
def splitFirstAt (ch : Char) : List Char → List Char × Option (List Char)
  | [] => ([], none)
  | c :: t =>
    if c == ch then ([], some t)
    else
      let r := splitFirstAt ch t
      (c :: r.1, r.2)

/-- `urllib.parse.urlparse(url).fragment`. -/
def urlFragment (url : String) : String :=
  match (splitFirstAt '#' (pySanitizeUrl url).toList).2 with
  | some f => f.asString
  | none => ""

/-- `urllib.parse.urlparse(url).query`. -/
def urlQuery (url : String) : String :=
  let pre := (splitFirstAt '#' (pySanitizeUrl url).toList).1
  match (splitFirstAt '?' pre).2 with
  | some q => q.asString
  | none => ""

/-- `qs.split('&')` (the separator of `parse_qsl` is the single `&`). -/
def splitAmp : List Char → List (List Char)
  | [] => [[]]
  | c :: t =>
    if c == '&' then [] :: splitAmp t
    else
      match splitAmp t with
      | [] => [[c]]
      | h :: r => (c :: h) :: r

/-- `name_value.split('=', 1)`, reported as `none` when `=` is absent. -/
def splitFirstEq : List Char → Option (List Char × List Char)
  | [] => none
  | c :: t =>
    if c == '=' then some ([], t)
    else (splitFirstEq t).map fun p => (c :: p.1, p.2)

def plusToSpace (l : List Char) : List Char := l.map fun c => if c == '+' then ' ' else c

/-- Model of `urllib.parse.parse_qsl(qs)` with the default
`keep_blank_values=False`: empty chunks are skipped, chunks without `=`
are skipped, chunks with an empty value are skipped, `+` becomes a space,
and percent-decoding is delegated to the stdlib collaborator `unq`
(`urllib.parse.unquote`), over which all theorems are universally
quantified. -/
def parse_qsl (unq : String → String) (qs : String) : List (String × String) :=
  if qs == "" then []
  else
    (splitAmp qs.toList).filterMap fun nv =>
      if nv == [] then none
      else
        match splitFirstEq nv with
        | none => none
        | some (n, v) =>
          if v == [] then none
          else some (unq (plusToSpace n).asString, unq (plusToSpace v).asString)

/-- `parse_qs(qs)[k][0]`: the first value listed for key `k`
(`parse_qs` groups `parse_qsl` preserving order, so the first value of a
key is the value of its first occurrence). -/
def qsFirst (l : List (String × String)) (k : String) : Option String :=
  (l.find? fun p => p.1 == k).map fun p => p.2

/-- `k in parse_qs(qs)`. -/
def qsHas (l : List (String × String)) (k : String) : Bool := (qsFirst l k).isSome

/-! ## The regexes of `parse_hash_album_from_url_or_page` -/

/-- `[A-Za-z0-9]` (ASCII, as in the Python character class). -/
def alnumChar (c : Char) : Bool := c.isAlpha || c.isDigit

/-- After the literal `/mixsong/` or `/kgmixsong/`: `([A-Za-z0-9]+)\.html`.
Since `.` is not alphanumeric, backtracking inside `+` is impossible and
the group is the maximal alphanumeric run, which must be non-empty and
followed by `.html`. -/
def midAt (l : List Char) : Option (List Char) :=
  let run := l.takeWhile alnumChar
  if run == [] then none
  else if isPrefixList ".html".toList (l.drop run.length) then some run
  else none

/-- One anchored attempt of the pattern
`/(?:mixsong|kgmixsong)/([A-Za-z0-9]+)\.html` at the head of `l`. -/
def mixsongAt (l : List Char) : Option (List Char) :=
  if isPrefixList "/mixsong/".toList l then midAt (l.drop 9)
  else if isPrefixList "/kgmixsong/".toList l then midAt (l.drop 11)
  else none

/-- `re.search`: try the anchored matcher at every position, leftmost
match wins. -/
def searchFrom {α : Type} (f : List Char → Option α) : List Char → Option α
  | [] => f []
  | c :: t =>
    match f (c :: t) with
    | some r => some r
    | none => searchFrom f t

/-- `re.search(r"/(?:mixsong|kgmixsong)/([A-Za-z0-9]+)\.html", url)`,
returning the captured group. -/
def mixsongSearch (l : List Char) : Option (List Char) := searchFrom mixsongAt l

/-- Case-sensitive literal match, returning the rest of the input. -/
def matchLit : List Char → List Char → Option (List Char)
  | [], l => some l
  | _ :: _, [] => none
  | p :: ps, c :: cs => if p == c then matchLit ps cs else none

/-- Case-insensitive literal match (model of `re.I` on literals). -/
def matchLitCI : List Char → List Char → Option (List Char)
  | [], l => some l
  | _ :: _, [] => none
  | p :: ps, c :: cs => if p.toLower == c.toLower then matchLitCI ps cs else none

/-- `[A-F0-9]` under `re.I`. -/
def hexCI (c : Char) : Bool := c.isDigit || ('A' ≤ c && c ≤ 'F') || ('a' ≤ c && c ≤ 'f')

def dropWs (l : List Char) : List Char := l.dropWhile pyIsSpace

/-- Anchored attempt of `"hash"\s*:\s*"([A-F0-9]{32})"` with `re.I`.
The `\s*` are greedy and the following literals are not whitespace, so no
backtracking arises. -/
def hashJsonAt (l : List Char) : Option (List Char) :=
  match matchLitCI "\"hash\"".toList l with
  | none => none
  | some r1 =>
    match dropWs r1 with
    | ':' :: r2 =>
      match dropWs r2 with
      | '"' :: r3 =>
        let hx := r3.take 32
        if hx.length == 32 && hx.all hexCI then
          match r3.drop 32 with
          | '"' :: _ => some hx
          | _ => none
        else none
      | _ => none
    | _ => none

/-- Anchored attempt of `hash=([A-F0-9]{32})` with `re.I`. -/
def hashEqAt (l : List Char) : Option (List Char) :=
  match matchLitCI "hash=".toList l with
  | none => none
  | some r =>
    let hx := r.take 32
    if hx.length == 32 && hx.all hexCI then some hx else none

/-- Anchored attempt of `"album_id"\s*:\s*(\d+)` (case-sensitive); the
group is the maximal digit run. -/
def albumJsonAt (l : List Char) : Option (List Char) :=
  match matchLit "\"album_id\"".toList l with
  | none => none
  | some r1 =>
    match dropWs r1 with
    | ':' :: r2 =>
      let ds := (dropWs r2).takeWhile Char.isDigit
      if ds == [] then none else some ds
    | _ => none

/-! ## Identifier extraction (`parse_hash_album_from_url_or_page`) -/

/-- Model of `parse_hash_album_from_url_or_page`.
`unq` is `urllib.parse.unquote`, `unesc` is `html.unescape` and `fetch`
is the page request (`requests.get(...).text`, `Except.error` modelling
any transport exception).  The second component is the list of URLs
actually fetched.  The `.getD ""` after `qsFirst` only names the value
that the guarding `qsHas` test has already proved present
(`frag_qs["hash"][0]` in the source). -/
def parse_hash_album_from_url_or_page (unq unesc : String → String)
    (fetch : String → Except String String) (url : String) :
    Except String (String × Option String × Option String) × List String :=
  let frag_qs := parse_qsl unq (urlFragment url)
  if qsHas frag_qs "hash" then
    (Except.ok ((qsFirst frag_qs "hash").getD "", qsFirst frag_qs "album_id", none), [])
  else
    let qs := parse_qsl unq (urlQuery url)
    if qsHas qs "hash" then
      (Except.ok ((qsFirst qs "hash").getD "", qsFirst qs "album_id", none), [])
    else if (mixsongSearch url.toList).isSome then
      match fetch url with
      | Except.error e => (Except.error e, [url])
      | Except.ok raw =>
        let html := unesc raw
        let hl := html.toList
        match (searchFrom hashJsonAt hl).orElse fun _ => searchFrom hashEqAt hl with
        | none => (Except.error "Could not find song hash in page.", [url])
        | some hx =>
          (Except.ok ((hx.map Char.toUpper).asString,
            (searchFrom albumJsonAt hl).map List.asString, some html), [url])
    else (Except.error "❌ Could not find hash in URL or page.", [])

/-! ## Metadata source adapters -/

/-- The fields of the mobile (Primary) API JSON that the program reads.
`none` models a missing key. -/
structure MobileData where
  url : Option String := none
  fileName : Option String := none
  singerName : Option String := none
  imgUrl : Option String := none
deriving DecidableEq

/-- The fields of the desktop (Secondary) `payload["data"]` dictionary
that the program reads, plus `audio_name`, the track title the desktop
API carries; the program never reads `audio_name` (it is needed only to
state the specification's claims about Secondary.title). -/
structure DesktopData where
  album_img : Option String := none
  union_cover : Option String := none
  img : Option String := none
  imgUrl : Option String := none
  audio_name : Option String := none
deriving DecidableEq

/-- The desktop API response body: either not a JSON object, or an object
with optional `status` and `data` members. -/
inductive DesktopPayload where
  | nonDict
  | dict (status : Option Int) (data : Option DesktopData)
deriving DecidableEq

/-- Which header set a request was issued with. -/
inductive HeaderKind where
  | desktop
  | mobile
deriving DecidableEq

/-- Model of `get_mobile_meta`: the response is either a transport error,
a non-dict JSON value (`none`) or a dict.  Raises unless `data.get("url")`
is truthy. -/
def get_mobile_meta (resp : Except String (Option MobileData)) : Except String MobileData :=
  match resp with
  | Except.error e => Except.error e
  | Except.ok none => Except.error "Mobile API returned no free url"
  | Except.ok (some d) =>
    if d.url.getD "" == "" then Except.error "Mobile API returned no free url"
    else Except.ok d

/-- Model of `get_desktop_meta`.  Returns `(.ok none, false)` without
consuming the response when `album_id` is falsy (no request is made: the
Bool is the did-call flag); otherwise raises unless the payload is a dict
with `status == 1` and a `data` member. -/
def get_desktop_meta (album_id : Option String) (resp : Except String DesktopPayload) :
    Except String (Option DesktopData) × Bool :=
  if album_id.getD "" == "" then (Except.ok none, false)
  else
    match resp with
    | Except.error e => (Except.error e, true)
    | Except.ok DesktopPayload.nonDict => (Except.error "Desktop API unexpected", true)
    | Except.ok (DesktopPayload.dict status data) =>
      if status == some 1 then
        match data with
        | some d => (Except.ok (some d), true)
        | none => (Except.error "Desktop API unexpected", true)
      else (Except.error "Desktop API unexpected", true)

/-! ## Cover resolver (`choose_best_cover`) -/

/-- Model of `_normalize_img`. -/
def _normalize_img (u : String) : String :=
  if u == "" then ""
  else
    let u1 := pyReplace u "{size}" "1000"
    if strStarts u1 "http://" then "https://" ++ strDrop u1 7 else u1

/-- The fixed field-name priority list iterated in step 0 of
`choose_best_cover`. -/
def coverFields (d : DesktopData) : List (String × Option String) :=
  [("album_img", d.album_img), ("union_cover", d.union_cover),
   ("img", d.img), ("imgUrl", d.imgUrl)]

/-- Step 0 loop body of `choose_best_cover`: first truthy desktop field
whose normalized URL is on the `imge.kugou.com` album-image host; a
truthy field failing the host check is skipped, not returned. -/
def pickDesktopCover : List (String × Option String) → Option (String × String)
  | [] => none
  | (k, v) :: rest =>
    match v with
    | none => pickDesktopCover rest
    | some u =>
      if u == "" then pickDesktopCover rest
      else
        let u1 := pyReplace u "{size}" "1000"
        let u2 := if strStarts u1 "http://" then "https://" ++ strDrop u1 7 else u1
        if hasSub u2 "imge.kugou.com" then some (u2, "desktop:" ++ k)
        else pickDesktopCover rest

/-- `if desktop: ...` step 0.  A `none` desktop and a desktop dict whose
priority fields all fail both behave as "step 0 produced nothing" (an
empty dict is falsy in Python, and on an empty dict the loop would also
produce nothing). -/
def step0 : Option DesktopData → Option (String × String)
  | none => none
  | some d => pickDesktopCover (coverFields d)

/-- `if u and "imge.kugou.com" in u` applied to an `Option`-valued
`fetch_og_image` result. -/
def passAllow : Option String → Bool
  | none => false
  | some u => u != "" && hasSub u "imge.kugou.com"

/-- Model of `fetch_mobile_mixsong_og_image`.  `og` is the
`fetch_og_image` oracle (its `Option String` result already includes the
og:image scrape and normalization performed inside `fetch_og_image`; it
returns `none` on any failure since exceptions are swallowed there);
the second component lists the pages actually requested.  When the URL
does not match the mixsong pattern no request is made. -/
def fetch_mobile_mixsong_og_image (og : String → HeaderKind → Option String)
    (url : String) : Option String × List (String × HeaderKind) :=
  match mixsongSearch url.toList with
  | none => (none, [])
  | some mid =>
    let share := "https://m.kugou.com/share/mixsong/" ++ mid.asString ++ ".html"
    (og share HeaderKind.mobile, [(share, HeaderKind.mobile)])

/-- Step 3 of `choose_best_cover`: when `album_id` is truthy, try the
desktop then the mobile album page (both fetched with desktop headers in
the source); stop at the first candidate passing the host check. -/
def albumPageStep (og : String → HeaderKind → Option String) (album_id : Option String) :
    Option (String × String) × List (String × HeaderKind) :=
  if album_id.getD "" == "" then (none, [])
  else
    let a := album_id.getD ""
    let u1 := "https://www.kugou.com/album/" ++ a ++ ".html"
    let u2 := "https://m.kugou.com/share/album/" ++ a ++ ".html"
    let r1 := og u1 HeaderKind.desktop
    if passAllow r1 then (some (r1.getD "", "album_page:og:image"), [(u1, HeaderKind.desktop)])
    else
      let r2 := og u2 HeaderKind.desktop
      if passAllow r2 then
        (some (r2.getD "", "album_page:og:image"),
         [(u1, HeaderKind.desktop), (u2, HeaderKind.desktop)])
      else (none, [(u1, HeaderKind.desktop), (u2, HeaderKind.desktop)])

/-- Model of `choose_best_cover`; second component is the request trace.
`page_html` is accepted but, as in the source, never used. -/
def choose_best_cover (og : String → HeaderKind → Option String)
    (src_page_url : String) (page_html : Option String) (album_id : Option String)
    (mobile : MobileData) (desktop : Option DesktopData) :
    (String × String) × List (String × HeaderKind) :=
  match step0 desktop with
  | some r => (r, [])
  | none =>
    let u1 := og src_page_url HeaderKind.desktop
    let tr1 := [(src_page_url, HeaderKind.desktop)]
    if passAllow u1 then ((u1.getD "", "page:og:image"), tr1)
    else
      let p2 := fetch_mobile_mixsong_og_image og src_page_url
      if passAllow p2.1 then ((p2.1.getD "", "mobile_share:og:image"), tr1 ++ p2.2)
      else
        let p3 := albumPageStep og album_id
        match p3.1 with
        | some r => (r, tr1 ++ p2.2 ++ p3.2)
        | none =>
          let u := mobile.imgUrl.getD ""
          let v1 := pyReplace u "{size}" "1000"
          let v2 := if strStarts v1 "http://" then "https://" ++ strDrop v1 7 else v1
          ((v2, "mobile:imgUrl"), tr1 ++ p2.2 ++ p3.2)

/-! ## Tagging and filename -/

/-- The character class `[<>:"/\\|?*\x00-\x1F]` of `windows_safe_name`. -/
def badNameChar (c : Char) : Bool :=
  c == '<' || c == '>' || c == ':' || c == '"' || c == '/' || c == '\\' ||
  c == '|' || c == '?' || c == '*' || c.toNat ≤ 0x1F

/-- Worker for `re.sub(r"\s+", " ", name)`: collapse every whitespace run
to a single space (the flag records whether the previous kept character
came from a whitespace run). -/
def collapseWsAux : Bool → List Char → List Char
  | _, [] => []
  | prevWs, c :: t =>
    if pyIsSpace c then
      if prevWs then collapseWsAux true t
      else ' ' :: collapseWsAux true t
    else c :: collapseWsAux false t

/-- Model of `windows_safe_name`. -/
def windows_safe_name (name : String) : String :=
  let l1 := name.toList.map fun c => if badNameChar c then ' ' else c
  let l2 := collapseWsAux false l1
  ((stripList l2).take 200).asString

/-- The title derivation of `add_basic_id3_tags`:
`file_name.split(" - ", 1)[-1] if " - " in file_name else file_name`. -/
def derivedTitle (file_name : String) : String :=
  if hasSub file_name " - " then pyAfterFirst file_name " - " else file_name

/-- Model of `add_basic_id3_tags`: the (title, artist) pair written to
the file, computed from the mobile record only. -/
def add_basic_id3_tags (mobile_data : MobileData) : String × String :=
  (derivedTitle (mobile_data.fileName.getD "Unknown"), mobile_data.singerName.getD "Unknown")

/-! ## The main pipeline -/

/-- The reconciled record a successful run produces: the ID3 title and
artist, the stream URL used for the download, the chosen cover with its
provenance label and the output file name.  The program writes no album
tag, so there is no album field. -/
structure Canonical where
  title : String
  artist : String
  streamURL : String
  coverURL : String
  coverSrc : String
  baseName : String
deriving DecidableEq

/-- Outcome of `main`: a `sys.exit` code or a successful run. -/
inductive RunResult where
  | exit (code : Nat)
  | done (c : Canonical)
deriving DecidableEq

/-- Result of `main` plus the cover-chain request trace and whether the
desktop adapter was actually queried. -/
structure MainOut where
  result : RunResult
  coverCalls : List (String × HeaderKind)
  desktopCalled : Bool
deriving DecidableEq

/-- The environment of one run: CLI arguments and the backend responses
(the oracles). -/
structure Env where
  url : String
  coverOverride : Option String
  pageFetch : String → Except String String
  mobileResp : Except String (Option MobileData)
  desktopResp : Except String DesktopPayload
  og : String → HeaderKind → Option String
  downloadOk : Bool

/-- The cover-selection step of `main`: a truthy `--cover` override is
normalized and labeled `"override"` with no chain call; otherwise the
fallback chain runs. -/
def pickCover (env : Env) (url : String) (album_id page_html : Option String)
    (mobile : MobileData) (desktop : Option DesktopData) :
    (String × String) × List (String × HeaderKind) :=
  if env.coverOverride.getD "" != "" then
    ((_normalize_img (env.coverOverride.getD ""), "override"), [])
  else choose_best_cover env.og url page_html album_id mobile desktop

/-- The tail of `main` after hash resolution and both adapter calls:
cover selection, output name, playable-URL check (exit 4), download
(exit 5), tagging (tag errors are swallowed in the source). -/
def with_desktop (env : Env) (url : String) (album_id page_html : Option String)
    (mobile : MobileData) (desktop : Option DesktopData) (dcalled : Bool) : MainOut :=
  let cov := pickCover env url album_id page_html mobile desktop
  let base_name := pyStrip (windows_safe_name (mobile.fileName.getD "Unknown")) ++ ".mp3"
  if mobile.url.getD "" == "" then ⟨RunResult.exit 4, cov.2, dcalled⟩
  else if !env.downloadOk then ⟨RunResult.exit 5, cov.2, dcalled⟩
  else
    let tags := add_basic_id3_tags mobile
    ⟨RunResult.done ⟨tags.1, tags.2, mobile.url.getD "", cov.1.1, cov.1.2, base_name⟩,
     cov.2, dcalled⟩

/-- `main` after hash resolution: mobile adapter (exit 3 on failure),
then the desktop adapter whose failure is caught (`desktop = None`). -/
def after_parse (env : Env) (url hsh : String) (album_id page_html : Option String) : MainOut :=
  match get_mobile_meta env.mobileResp with
  | Except.error _ => ⟨RunResult.exit 3, [], false⟩
  | Except.ok mobile =>
    let dr := get_desktop_meta album_id env.desktopResp
    let desktop :=
      match dr.1 with
      | Except.ok d => d
      | Except.error _ => none
    with_desktop env url album_id page_html mobile desktop dr.2

/-- Model of `main`: strip the URL argument, resolve the hash (exit 2 on
failure), then run the rest of the pipeline. -/
def main_model (unq unesc : String → String) (env : Env) : MainOut :=
  let url := pyStrip env.url
  match (parse_hash_album_from_url_or_page unq unesc env.pageFetch url).1 with
  | Except.error _ => ⟨RunResult.exit 2, [], false⟩
  | Except.ok (hsh, album_id, page_html) => after_parse env url hsh album_id page_html

/-! ## Characterization helper for the Primary adapter contract -/

/-- Whether a mobile response carries a truthy free-play `url` (the exact
condition the source tests before returning). -/
def respHasFreeUrl : Except String (Option MobileData) → Bool
  | Except.ok (some d) => d.url.getD "" != ""
  | _ => false

/-! ## Concrete fixtures used by the witness and counterexample theorems -/

/-- Primary record of the C1 run: combined-field title `"B"`. -/
def m1 : MobileData := { url := some "s3://m", fileName := some "B" }

/-- Secondary record of the C1 run: the desktop payload carries the
track title `"A"` in `audio_name`. -/
def dd1 : DesktopData := { audio_name := some "A" }

/-- A run where the Secondary source succeeds and carries title `"A"`
while the Primary `fileName` is `"B"`. -/
def env1 : Env :=
  { url := "https://service.example/song#hash=H1&album_id=7"
    coverOverride := none
    pageFetch := fun _ => Except.error "network unavailable"
    mobileResp := Except.ok (some m1)
    desktopResp := Except.ok (DesktopPayload.dict (some 1) (some dd1))
    og := fun _ _ => none
    downloadOk := true }

/-- The canonical record the pipeline produces for `env1`. -/
def c1val : Canonical :=
  ⟨"B", "Unknown", "s3://m", "", "mobile:imgUrl", "B.mp3"⟩

/-- Primary record of the C2 run: the backend supplies `fileName` as the
empty string (key present, value empty). -/
def m2 : MobileData :=
  { url := some "s3://x", fileName := some "", singerName := some "Artist" }

/-- A run with an empty backend-supplied `fileName`. -/
def env2 : Env :=
  { url := "https://service.example/song#hash=H2"
    coverOverride := none
    pageFetch := fun _ => Except.error "network unavailable"
    mobileResp := Except.ok (some m2)
    desktopResp := Except.error "secondary failure"
    og := fun _ _ => none
    downloadOk := true }

/-- The canonical record the pipeline produces for `env2`: its title is
the empty string. -/
def c2val : Canonical :=
  ⟨"", "Artist", "s3://x", "", "mobile:imgUrl", ".mp3"⟩

/-- Primary record of the specification's end-to-end scenario. -/
def m3 : MobileData := { url := some "s3://x", fileName := some "Artist - Title" }

/-- The specification's end-to-end scenario: fragment URL with hash and
album_id 42, Primary returns stream URL and combined file name, the
Secondary source fails, no cover override, every page scrape fails. -/
def env3 : Env :=
  { url := "https://service.example/song#hash=ABCDEF00112233445566778899AABBCC&album_id=42"
    coverOverride := none
    pageFetch := fun _ => Except.error "network unavailable"
    mobileResp := Except.ok (some m3)
    desktopResp := Except.error "secondary failure"
    og := fun _ _ => none
    downloadOk := true }

/-- The canonical record the code actually produces for the scenario:
artist falls back to `"Unknown"` (the code never derives an artist from
the combined field), and there is no album field at all. -/
def c3val : Canonical :=
  ⟨"Title", "Unknown", "s3://x", "", "mobile:imgUrl", "Artist - Title.mp3"⟩

/-- The cover-chain probes the scenario run issues before landing on the
avatar fallback. -/
def trace3 : List (String × HeaderKind) :=
  [("https://service.example/song#hash=ABCDEF00112233445566778899AABBCC&album_id=42",
    HeaderKind.desktop),
   ("https://www.kugou.com/album/42.html", HeaderKind.desktop),
   ("https://m.kugou.com/share/album/42.html", HeaderKind.desktop)]

/-- Primary record of the C7 run. -/
def m7 : MobileData := { url := some "s3://x", fileName := some "Artist - Title" }

/-- A run whose Secondary (desktop) adapter fails semantically: the API
answers 200 with a well-formed JSON object whose `status` is 0 and which
carries no `data` member (the "Desktop API unexpected" raise), the shape
a rate-limited or region-blocked response takes. -/
def env7 : Env :=
  { url := "https://service.example/song#hash=ABCDEF00112233445566778899AABBCC&album_id=42"
    coverOverride := none
    pageFetch := fun _ => Except.error "network unavailable"
    mobileResp := Except.ok (some m7)
    desktopResp := Except.ok (DesktopPayload.dict (some 0) none)
    og := fun _ _ => none
    downloadOk := true }

/-- A Secondary record whose first structured cover field passes the
`imge.kugou.com` allowlist after normalization. -/
def d8 : DesktopData := { album_img := some "http://imge.kugou.com/a/{size}.jpg" }

/-- A cover oracle that would answer every scrape (so that any chain step
reached after step 0 would both probe the network and succeed). -/
def og8 : String → HeaderKind → Option String := fun _ _ => some "https://imge.kugou.com/other.jpg"

/-- Primary record of the C8 run. -/
def mob8 : MobileData := { url := some "s3://x", imgUrl := some "https://avatar.example/s.jpg" }

/-- Primary record of the C9 run. -/
def m9 : MobileData := { url := some "s3://x", fileName := some "Artist - Title" }

/-- A run with a caller-supplied `--cover` override whose host is not on
the allowlist. -/
def env9 : Env :=
  { url := "https://service.example/song#hash=H9"
    coverOverride := some "http://img.example/a.jpg"
    pageFetch := fun _ => Except.error "network unavailable"
    mobileResp := Except.ok (some m9)
    desktopResp := Except.error "secondary failure"
    og := fun _ _ => none
    downloadOk := true }

/-- The canonical record the pipeline produces for `env9`. -/
def c9val : Canonical :=
  ⟨"Title", "Unknown", "s3://x", "https://img.example/a.jpg", "override", "Artist - Title.mp3"⟩

/-! ## Helper lemmas -/

theorem get_mobile_meta_ok_spec {resp : Except String (Option MobileData)} {m : MobileData}
    (h : get_mobile_meta resp = Except.ok m) :
    resp = Except.ok (some m) ∧ (m.url.getD "" == "") = false := by
  cases resp with
  | error e => simp [get_mobile_meta] at h
  | ok o =>
    cases o with
    | none => simp [get_mobile_meta] at h
    | some d =>
      cases hc : d.url.getD "" == "" with
      | true => simp [get_mobile_meta, hc] at h
      | false =>
        simp [get_mobile_meta, hc] at h
        subst h
        exact ⟨rfl, hc⟩

theorem get_desktop_meta_called (a : Option String) (r : Except String DesktopPayload) :
    (get_desktop_meta a r).2 = (a.getD "" != "") := by
  cases hc : a.getD "" == "" with
  | true => simp [get_desktop_meta, hc, bne]
  | false =>
    cases r with
    | error e => simp [get_desktop_meta, hc, bne]
    | ok p =>
      cases p with
      | nonDict => simp [get_desktop_meta, hc, bne]
      | dict st dat =>
        cases hs : st == some 1 <;> cases dat <;> simp [get_desktop_meta, hc, hs, bne]

theorem desktopOf_error (a : Option String) (e : String) :
    (match (get_desktop_meta a (Except.error e)).1 with
     | Except.ok d => d
     | Except.error _ => none) = (none : Option DesktopData) := by
  cases hc : a.getD "" == "" <;> simp [get_desktop_meta, hc]

theorem with_desktop_done_spec {env : Env} {url : String} {album_id page_html : Option String}
    {mobile : MobileData} {desktop : Option DesktopData} {dc : Bool} {c : Canonical}
    (h : (with_desktop env url album_id page_html mobile desktop dc).result = RunResult.done c) :
    c = ⟨derivedTitle (mobile.fileName.getD "Unknown"), mobile.singerName.getD "Unknown",
         mobile.url.getD "",
         (pickCover env url album_id page_html mobile desktop).1.1,
         (pickCover env url album_id page_html mobile desktop).1.2,
         pyStrip (windows_safe_name (mobile.fileName.getD "Unknown")) ++ ".mp3"⟩ ∧
    (mobile.url.getD "" == "") = false ∧ env.downloadOk = true := by
  cases hu : mobile.url.getD "" == "" with
  | true => simp [with_desktop, hu] at h
  | false =>
    cases hdl : env.downloadOk with
    | false => simp [with_desktop, hu, hdl] at h
    | true =>
      simp [with_desktop, hu, hdl, add_basic_id3_tags] at h
      exact ⟨h.symm, rfl, rfl⟩

theorem main_model_split (unq unesc : String → String) (env : Env) :
    main_model unq unesc env = ⟨RunResult.exit 2, [], false⟩ ∨
    main_model unq unesc env = ⟨RunResult.exit 3, [], false⟩ ∨
    ∃ hsh album_id page_html m,
      (parse_hash_album_from_url_or_page unq unesc env.pageFetch (pyStrip env.url)).1 =
        Except.ok (hsh, album_id, page_html) ∧
      get_mobile_meta env.mobileResp = Except.ok m ∧
      main_model unq unesc env =
        with_desktop env (pyStrip env.url) album_id page_html m
          (match (get_desktop_meta album_id env.desktopResp).1 with
           | Except.ok d => d
           | Except.error _ => none)
          (get_desktop_meta album_id env.desktopResp).2 := by
  rcases hp : (parse_hash_album_from_url_or_page unq unesc env.pageFetch (pyStrip env.url)).1
    with e | ⟨hsh, album_id, page_html⟩
  · left
    simp [main_model, hp]
  · rcases hm : get_mobile_meta env.mobileResp with e3 | m
    · right; left
      simp [main_model, hp, after_parse, hm]
    · right; right
      exact ⟨hsh, album_id, page_html, m, rfl, rfl, by simp [main_model, hp, after_parse, hm]⟩

/-! ## Claim theorems -/

/-- C4: for every URL whose fragment, parsed as a query string, contains
a `hash` key with (first) value `x`, extraction returns `x` as the
TrackIdentifier with its case unchanged, together with the fragment's
`album_id` (if any), deterministically and with an empty request trace:
the fragment strategy short-circuits the query and page-scrape
strategies, whatever the page fetch would have answered. -/
theorem C4_fragment_hash_extraction (unq unesc : String → String)
    (fetch : String → Except String String) (url x : String)
    (hx : qsFirst (parse_qsl unq (urlFragment url)) "hash" = some x) :
    parse_hash_album_from_url_or_page unq unesc fetch url =
      (Except.ok (x, qsFirst (parse_qsl unq (urlFragment url)) "album_id", none), []) := by
  simp [parse_hash_album_from_url_or_page, qsHas, hx]

/-- C4 witness: a concrete fragment URL with a mixed-case hash value,
returned with its case unchanged and no request issued. -/
theorem C4_fragment_hash_extraction_witness :
    parse_hash_album_from_url_or_page id id (fun _ => Except.error "network unavailable")
        "https://service.example/song#hash=AbCdEf00&album_id=9" =
      (Except.ok ("AbCdEf00", some "9", none), []) :=
  C4_fragment_hash_extraction id id (fun _ => Except.error "network unavailable")
    "https://service.example/song#hash=AbCdEf00&album_id=9" "AbCdEf00" (by decide)

/-- C5: when neither the fragment nor the query contains a `hash` key and
the URL does not match the mixsong track-page pattern, extraction fails
with the no-identifier error and the request trace is empty (no network
call), whatever the page fetch would have answered. -/
theorem C5_no_strategy_error_no_network (unq unesc : String → String)
    (fetch : String → Except String String) (url : String)
    (h1 : qsHas (parse_qsl unq (urlFragment url)) "hash" = false)
    (h2 : qsHas (parse_qsl unq (urlQuery url)) "hash" = false)
    (h3 : mixsongSearch url.toList = none) :
    parse_hash_album_from_url_or_page unq unesc fetch url =
      (Except.error "❌ Could not find hash in URL or page.", []) := by
  simp only [String.toList] at h3
  simp [parse_hash_album_from_url_or_page, h1, h2, h3]

/-- C5 witness: a concrete URL with no hash anywhere and no track-page
pattern. -/
theorem C5_no_strategy_error_no_network_witness :
    parse_hash_album_from_url_or_page id id (fun _ => Except.error "network unavailable")
        "https://www.kugou.com/yy/rank/home.html" =
      (Except.error "❌ Could not find hash in URL or page.", []) :=
  C5_no_strategy_error_no_network id id (fun _ => Except.error "network unavailable")
    "https://www.kugou.com/yy/rank/home.html" (by decide) (by decide) (by decide)

/-- C10: when the fragment yields a `hash` key but carries no `album_id`
key, the GroupIdentifier is `none` — the query component is never
consulted, so an `album_id` sitting in the query cannot leak in. -/
theorem C10_fragment_ignores_query (unq unesc : String → String)
    (fetch : String → Except String String) (url x : String)
    (hx : qsFirst (parse_qsl unq (urlFragment url)) "hash" = some x)
    (ha : qsFirst (parse_qsl unq (urlFragment url)) "album_id" = none) :
    parse_hash_album_from_url_or_page unq unesc fetch url =
      (Except.ok (x, none, none), []) := by
  simp [parse_hash_album_from_url_or_page, qsHas, hx, ha]

/-- C10 witness: the query carries `album_id=99`, the fragment carries
only the hash; the extracted GroupIdentifier is still `none`. -/
theorem C10_fragment_ignores_query_witness :
    parse_hash_album_from_url_or_page id id (fun _ => Except.error "network unavailable")
        "https://service.example/p?album_id=99#hash=AA" =
      (Except.ok ("AA", none, none), []) :=
  C10_fragment_ignores_query id id (fun _ => Except.error "network unavailable")
    "https://service.example/p?album_id=99#hash=AA" "AA" (by decide) (by decide)

/-- C6: the Primary (mobile) adapter succeeds exactly on responses that
are a JSON object carrying a truthy `url`; on success it returns the
response record itself, whose stream URL is therefore non-empty — it
never returns a record with a falsy stream URL in place of raising. -/
theorem C6_mobile_adapter_contract (resp : Except String (Option MobileData)) :
    ((get_mobile_meta resp).isOk = respHasFreeUrl resp) ∧
    (match get_mobile_meta resp with
     | Except.ok d => resp = Except.ok (some d) ∧ d.url.getD "" ≠ ""
     | Except.error _ => True) := by
  cases resp with
  | error e => simp [get_mobile_meta, respHasFreeUrl, Except.isOk, Except.toBool]
  | ok o =>
    cases o with
    | none => simp [get_mobile_meta, respHasFreeUrl, Except.isOk, Except.toBool]
    | some d =>
      cases hc : d.url.getD "" == "" with
      | true => simp [get_mobile_meta, respHasFreeUrl, Except.isOk, Except.toBool, hc, bne]
      | false =>
        have hne : d.url.getD "" ≠ "" := by
          intro hz
          rw [hz] at hc
          simp at hc
        simp [get_mobile_meta, respHasFreeUrl, Except.isOk, Except.toBool, hc, bne, hne]

/-- C1 counterexample: a run where the Secondary (desktop) record is
present and carries title `"A"` while the Primary `fileName` is `"B"`;
the pipeline's canonical title is `"B"`, not `"A"` — the Secondary
record's title never wins. -/
theorem C1_secondary_title_ignored_cex :
    env1.desktopResp = Except.ok (DesktopPayload.dict (some 1) (some dd1)) ∧
    dd1.audio_name = some "A" ∧
    m1.fileName = some "B" ∧
    (main_model id id env1).result = RunResult.done c1val ∧
    c1val.title = "B" ∧ ("B" : String) ≠ "A" :=
  ⟨rfl, rfl, rfl, by decide, rfl, by decide⟩

/-- C1 amended: the canonical title is computed from the Primary record
alone — it is the `" - "`-derived part of Primary's `fileName`, or the
literal `"Unknown"` when that key is absent; the Secondary record is
never consulted for the title (the conclusion does not depend on the
desktop response). -/
theorem C1_title_from_primary_filename (unq unesc : String → String) (env : Env)
    (c : Canonical) (m : MobileData)
    (hd : (main_model unq unesc env).result = RunResult.done c)
    (hm : get_mobile_meta env.mobileResp = Except.ok m) :
    c.title = derivedTitle (m.fileName.getD "Unknown") := by
  rcases main_model_split unq unesc env with h | h | ⟨hsh, a, p, m', hp, hm', h⟩
  · rw [h] at hd
    simp at hd
  · rw [h] at hd
    simp at hd
  · rw [hm] at hm'
    injection hm' with hmm
    subst hmm
    rw [h] at hd
    obtain ⟨hc, _, _⟩ := with_desktop_done_spec hd
    rw [hc]

/-- C1 amended witness: the run of `env1` reaches success and its title
is exactly the Primary-derived one. -/
theorem C1_title_from_primary_filename_witness :
    c1val.title = derivedTitle (m1.fileName.getD "Unknown") :=
  C1_title_from_primary_filename id id env1 c1val m1 (by decide) rfl

/-- C2 counterexample: the backend supplies `fileName` as the empty
string (key present); the pipeline reports success with an empty
canonical title, contradicting "never the empty string". -/
theorem C2_empty_title_on_success_cex :
    m2.fileName = some "" ∧
    (main_model id id env2).result = RunResult.done c2val ∧
    c2val.title = "" :=
  ⟨rfl, by decide, rfl⟩

/-- C2 amended: on success the stream URL is non-empty; title and artist
are total strings that default to `"Unknown"` exactly when the backend
omits the key, and they can be empty only when the backend itself
supplies an empty value (`dict.get`'s default applies to missing keys
only). -/
theorem C2_success_invariant_amended (unq unesc : String → String) (env : Env)
    (c : Canonical) (m : MobileData)
    (hd : (main_model unq unesc env).result = RunResult.done c)
    (hm : get_mobile_meta env.mobileResp = Except.ok m) :
    c.streamURL ≠ "" ∧
    (m.fileName = none → c.title = "Unknown") ∧
    (m.singerName = none → c.artist = "Unknown") ∧
    (c.title = "" → ∃ fn, m.fileName = some fn ∧ derivedTitle fn = "") ∧
    (c.artist = "" → m.singerName = some "") := by
  rcases main_model_split unq unesc env with h | h | ⟨hsh, a, p, m', hp, hm', h⟩
  · rw [h] at hd
    simp at hd
  · rw [h] at hd
    simp at hd
  · rw [hm] at hm'
    injection hm' with hmm
    subst hmm
    rw [h] at hd
    obtain ⟨hc, hu, _⟩ := with_desktop_done_spec hd
    subst hc
    refine ⟨?_, ?_, ?_, ?_, ?_⟩
    · intro hz
      have hz2 : m.url.getD "" = "" := hz
      rw [hz2] at hu
      exact absurd hu (by decide)
    · intro hf
      show derivedTitle (m.fileName.getD "Unknown") = "Unknown"
      rw [hf]
      decide
    · intro hs
      show m.singerName.getD "Unknown" = "Unknown"
      rw [hs]
      rfl
    · intro ht
      have ht2 : derivedTitle (m.fileName.getD "Unknown") = "" := ht
      cases hf : m.fileName with
      | none =>
        rw [hf] at ht2
        exact absurd ht2 (by decide)
      | some fn =>
        rw [hf] at ht2
        exact ⟨fn, rfl, ht2⟩
    · intro ha2
      have ha3 : m.singerName.getD "Unknown" = "" := ha2
      cases hs : m.singerName with
      | none =>
        rw [hs] at ha3
        exact absurd ha3 (by decide)
      | some s =>
        rw [hs] at ha3
        rw [show (some s).getD "Unknown" = s from rfl] at ha3
        rw [ha3]

/-- C2 amended witness. -/
theorem C2_success_invariant_amended_witness : c2val.streamURL ≠ "" :=
  (C2_success_invariant_amended id id env2 c2val m2 (by decide) rfl).1

/-- C3 counterexample: in the specification's end-to-end scenario the
pipeline succeeds but the canonical artist is `"Unknown"`, not
`"Artist"` — the code never derives an artist from the combined
`"Artist - Title"` field, and the Primary record carries no
`singerName`. -/
theorem C3_scenario_artist_cex :
    (main_model id id env3).result = RunResult.done c3val ∧
    c3val.artist = "Unknown" ∧ ("Unknown" : String) ≠ "Artist" :=
  ⟨by decide, rfl, by decide⟩

/-- C3 amended: the scenario produces
`{title "Title", artist "Unknown", streamURL "s3://x"}` (no album tag is
ever written, so the canonical record has no album field), the title
being the substring after the first `" - "` of the combined field, and
the cover falls through to the avatar fallback (`"mobile:imgUrl"` label,
empty URL) after probing the page and both album pages. -/
theorem C3_scenario_amended :
    main_model id id env3 = ⟨RunResult.done c3val, trace3, true⟩ := by
  decide

theorem get_desktop_meta_error_spec {a : Option String} {r : Except String DesktopPayload}
    {e : String} (h : (get_desktop_meta a r).1 = Except.error e) :
    (a.getD "" == "") = false ∧ (get_desktop_meta a r).2 = true := by
  cases hc : a.getD "" == "" with
  | true => simp [get_desktop_meta, hc] at h
  | false =>
    refine ⟨rfl, ?_⟩
    rw [get_desktop_meta_called]
    simp [bne, hc]

/-- C7: the desktop (Secondary) adapter is queried exactly when a
GroupIdentifier is present (second conjunct), and for every failure of
the adapter call — transport error, non-object payload, `status != 1` or
a missing `data` member alike, i.e. whenever `get_desktop_meta` raises —
the failure is caught locally: it can only arise with a GroupIdentifier
present, the pipeline continuation is identical to running with no
Secondary record at all, and — the mobile adapter having succeeded — the
run still reaches a successful resolution whenever the download
succeeds.  Secondary failure never aborts the pipeline. -/
theorem C7_secondary_failure_nonfatal (env : Env) (e : String) (m : MobileData)
    (hm : get_mobile_meta env.mobileResp = Except.ok m) :
    (∀ url hsh album_id page_html,
        (get_desktop_meta album_id env.desktopResp).1 = Except.error e →
        album_id.getD "" ≠ "" ∧
        after_parse env url hsh album_id page_html =
          with_desktop env url album_id page_html m none true ∧
        (env.downloadOk = true →
          ∃ c, (after_parse env url hsh album_id page_html).result = RunResult.done c)) ∧
    (∀ (a : Option String) (r : Except String DesktopPayload),
        (get_desktop_meta a r).2 = (a.getD "" != "")) := by
  refine ⟨?_, get_desktop_meta_called⟩
  intro url hsh album_id page_html hf
  obtain ⟨hc, hcall⟩ := get_desktop_meta_error_spec hf
  have habs : album_id.getD "" ≠ "" := by
    intro hz
    rw [hz] at hc
    simp at hc
  have hmain : after_parse env url hsh album_id page_html =
      with_desktop env url album_id page_html m none true := by
    unfold after_parse
    rw [hm]
    show with_desktop env url album_id page_html m
        (match (get_desktop_meta album_id env.desktopResp).1 with
          | Except.ok d => d
          | Except.error _ => none)
        (get_desktop_meta album_id env.desktopResp).2 =
      with_desktop env url album_id page_html m none true
    rw [hf, hcall]
  refine ⟨habs, hmain, ?_⟩
  intro hdl
  rw [hmain]
  obtain ⟨-, hu⟩ := get_mobile_meta_ok_spec hm
  unfold with_desktop
  rw [hu, hdl]
  exact ⟨_, rfl⟩

/-- C7 witness: in `env7` the Secondary adapter fails on a malformed
payload (`status` 0, no `data`), not on transport, and the pipeline
still resolves successfully. -/
theorem C7_secondary_failure_nonfatal_witness :
    ∃ c, (after_parse env7 "https://service.example/song" "H" (some "42") none).result =
      RunResult.done c :=
  (((C7_secondary_failure_nonfatal env7 "Desktop API unexpected" m7 rfl).1
      "https://service.example/song" "H" (some "42") none rfl).2.2) rfl

/-- C8: whenever step 0 of the cover chain (the Secondary record's
structured cover fields) yields a candidate passing the
`imge.kugou.com` allowlist, `choose_best_cover` returns that candidate
with an empty request trace: the page scrape, mobile-share scrape,
album-page scrape and avatar fallback are never attempted. -/
theorem C8_cover_chain_short_circuit (og : String → HeaderKind → Option String)
    (src_page_url : String) (page_html album_id : Option String)
    (mobile : MobileData) (d : DesktopData) (r : String × String)
    (h : pickDesktopCover (coverFields d) = some r) :
    choose_best_cover og src_page_url page_html album_id mobile (some d) = (r, []) := by
  simp [choose_best_cover, step0, h]

/-- C8 witness: a desktop record whose `album_img` passes the allowlist
after normalization, an oracle that would answer every scrape, and a URL
that would match every later step: the resolver still answers from step 0
with no request. -/
theorem C8_cover_chain_short_circuit_witness :
    choose_best_cover og8 "https://www.kugou.com/mixsong/zz.html" none (some "1") mob8 (some d8) =
      (("https://imge.kugou.com/a/1000.jpg", "desktop:album_img"), []) :=
  C8_cover_chain_short_circuit og8 "https://www.kugou.com/mixsong/zz.html" none (some "1")
    mob8 d8 ("https://imge.kugou.com/a/1000.jpg", "desktop:album_img") (by decide)

/-- C9: a truthy caller-supplied cover override makes the run issue zero
cover-chain requests, and on success the canonical cover is exactly
`_normalize_img` of the override (size placeholder substituted, http
upgraded to https — no allowlist validation) labeled `"override"`; in
particular `http://img.example/a.jpg` normalizes to
`https://img.example/a.jpg`. -/
theorem C9_override_bypasses_chain (unq unesc : String → String) (env : Env) (o : String)
    (ho : env.coverOverride = some o) (hne : o ≠ "") :
    (main_model unq unesc env).coverCalls = [] ∧
    (∀ c, (main_model unq unesc env).result = RunResult.done c →
        c.coverURL = _normalize_img o ∧ c.coverSrc = "override") ∧
    _normalize_img "http://img.example/a.jpg" = "https://img.example/a.jpg" := by
  have hcov : ∀ url album_id page_html mobile desktop,
      pickCover env url album_id page_html mobile desktop =
        ((_normalize_img o, "override"), []) := by
    intro url album_id page_html mobile desktop
    unfold pickCover
    rw [ho]
    simp [bne_iff_ne, hne]
  refine ⟨?_, ?_, by decide⟩
  · rcases main_model_split unq unesc env with h | h | ⟨hsh, a, p, m, hp, hm, h⟩
    · rw [h]
    · rw [h]
    · rw [h]
      unfold with_desktop
      rw [hcov]
      cases hu : m.url.getD "" == "" <;> cases hdl : env.downloadOk <;> simp
  · intro c hd
    rcases main_model_split unq unesc env with h | h | ⟨hsh, a, p, m, hp, hm, h⟩
    · rw [h] at hd
      simp at hd
    · rw [h] at hd
      simp at hd
    · rw [h] at hd
      obtain ⟨hc, -, -⟩ := with_desktop_done_spec hd
      subst hc
      constructor
      · show (pickCover env (pyStrip env.url) a p m _).1.1 = _normalize_img o
        rw [hcov]
      · show (pickCover env (pyStrip env.url) a p m _).1.2 = "override"
        rw [hcov]

/-- C9 witness: the `env9` run issues zero cover-chain requests and its
canonical record carries the normalized override labeled `"override"`. -/
theorem C9_override_bypasses_chain_witness :
    (main_model id id env9).coverCalls = [] ∧
    c9val.coverURL = _normalize_img "http://img.example/a.jpg" ∧
    c9val.coverSrc = "override" :=
  ⟨(C9_override_bypasses_chain id id env9 "http://img.example/a.jpg" rfl (by decide)).1,
   ((C9_override_bypasses_chain id id env9 "http://img.example/a.jpg" rfl (by decide)).2.1
      c9val (by decide)).1,
   ((C9_override_bypasses_chain id id env9 "http://img.example/a.jpg" rfl (by decide)).2.1
      c9val (by decide)).2⟩
